import Mathlib

/-!
# Verification of the notipay-gobackend payment/disbursement core

Shallow embedding of the payment orchestration core of the
`markjakearzadon/notipaygobackend` repository (package `services`,
files `src/unnamed/part_002` — the invoice-based `PaymentService` —
and `src/unnamed/part_003` — the charge-based `PaymentService`),
together with the sensitive-field redactor `maskSensitiveFields`.

Modelling conventions:
* The MongoDB document store is external to the core; per the spec's
  store contract (§4.2) `FindOne{"_id": x}` / `FindOne{"invoice_id": x}` /
  `UpdateOne` are modelled as first-match lookup / first-match update on a
  list of records, keyed by the corresponding string field.
* `primitive.ObjectIDFromHex` is modelled by `validObjectId`
  (24 hexadecimal characters); the generated fresh ObjectIDs come from an
  environment-supplied stream `freshId`.
* HTTP gateway traffic is an environment parameter: each call site's
  successive attempts are an `Attempt` stream, and `encoding/json`
  decoding of a successful body is an environment-supplied decoder.
  `W` counts how many times each gateway call site entered its retry loop.
* Go strings are byte slices; `String.take`/`String.drop`/`String.length`
  agree with the Go byte-level operations on the ASCII data used throughout.
* Errors (`fmt.Errorf`) are modelled by the inductive `PayErr`, one
  constructor per distinct error message of the source.
* `time.Now()` is an explicit `now : Nat` argument; `updated_at` and
  `created_at` store it.
-/

/-- Go `models.Payment` (the `bson` document; the invoice variant stores
`invoice_id`, the charge variant stores `charge_id`; absent fields are `""`). -/
structure Payment where
  id : String
  referenceId : String
  payerId : String
  payeeId : String
  amount : Rat
  title : String
  description : String
  status : String
  invoiceId : String
  chargeId : String
  disbursementId : String
  checkoutUrl : String
  createdAt : Nat
  updatedAt : Nat
deriving Repr, DecidableEq

/-- Go `models.User` (the fields the payment core reads). -/
structure User where
  id : String
  fullName : String
  email : String
  gcashNumber : String
deriving Repr, DecidableEq

/-- The observable state threaded through the service operations:
the two collections plus one counter per gateway call site
(number of times the corresponding retry loop was entered)
and the fresh-ObjectID counter. -/
structure W where
  payments : List Payment
  users : List User
  invCalls : Nat := 0
  chargeCalls : Nat := 0
  disbCalls : Nat := 0
  idCount : Nat := 0
deriving Repr, DecidableEq

/-- One constructor per distinct `fmt.Errorf` message of the source. -/
inductive PayErr where
  | invalidIdFormat
  | paymentNotFound
  | webhookPaymentNotFound (invoiceId : String)
  | payerNotFound
  | payeeNotFound
  | emptyIds
  | amountNotPositive
  | emptyTitleOrDescription
  | emptyTitle
  | emptyDescription
  | envMissing
  | emailMissing
  | gcashMissing
  | gcashInvalid
  | gatewayFailed (lastCode : Nat) (lastBody : String)
  | gatewayPanic
  | decodeFailed
  | noCheckoutURL
  | invalidStatusFromGateway (st : String)
  | statusConflict (current : String)
  | disburseConflict (current : String)
  | invalidEvent
  | invalidData
deriving Repr, DecidableEq

deriving instance DecidableEq for Except

/-- Mongo `UpdateOne`: update the first record matching the selector. -/
def updateFirst (pred : α → Bool) (f : α → α) : List α → List α
  | [] => []
  | x :: xs => if pred x then f x :: xs else x :: updateFirst pred f xs

theorem updateFirst_of_find?_none (pred : α → Bool) (f : α → α) :
    ∀ l : List α, l.find? pred = none → updateFirst pred f l = l := by
  intro l
  induction l with
  | nil => intro _; rfl
  | cons x xs ih =>
    intro h
    rw [List.find?_cons] at h
    cases hx : pred x with
    | true => rw [hx] at h; exact absurd h (by simp)
    | false =>
      rw [hx] at h
      simp only [updateFirst, hx, Bool.false_eq_true, if_false]
      rw [ih h]

theorem find?_updateFirst (pred : α → Bool) (f : α → α)
    (hf : ∀ x, pred x = true → pred (f x) = true) :
    ∀ (l : List α) (p : α), l.find? pred = some p →
      (updateFirst pred f l).find? pred = some (f p) := by
  intro l
  induction l with
  | nil => intro p h; simp at h
  | cons x xs ih =>
    intro p h
    rw [List.find?_cons] at h
    cases hx : pred x with
    | true =>
      rw [hx] at h
      simp only [Option.some.injEq] at h
      subst h
      simp only [updateFirst, hx, if_true]
      rw [List.find?_cons, hf _ hx]
    | false =>
      rw [hx] at h
      simp only [updateFirst, hx, Bool.false_eq_true, if_false]
      rw [List.find?_cons, hx]
      exact ih p h

/-- Positions are preserved by `updateFirst`: an entry of the result is,
position by position, either the old entry or its update. -/
theorem updateFirst_getElem? (pred : α → Bool) (f : α → α) :
    ∀ (l : List α) (i : Nat),
      (updateFirst pred f l)[i]? = l[i]? ∨
      ∃ x, l[i]? = some x ∧ (updateFirst pred f l)[i]? = some (f x) := by
  intro l
  induction l with
  | nil => intro i; left; rfl
  | cons x xs ih =>
    intro i
    cases hx : pred x with
    | true =>
      simp only [updateFirst, hx, if_true]
      cases i with
      | zero => right; exact ⟨x, by simp, by simp⟩
      | succ j => left; simp
    | false =>
      simp only [updateFirst, hx, Bool.false_eq_true, if_false]
      cases i with
      | zero => left; simp
      | succ j =>
        simp only [List.getElem?_cons_succ]
        exact ih j

/-- Models `primitive.ObjectIDFromHex`: succeeds exactly on 24 hex characters. -/
def isHexChar (c : Char) : Bool :=
  c.isDigit || ('a' ≤ c && c ≤ 'f') || ('A' ≤ c && c ≤ 'F')

def validObjectId (s : String) : Bool :=
  s.length == 24 && s.toList.all isHexChar

/-- The whitespace class of `strings.TrimSpace` (ASCII part). -/
def isSpaceChar (c : Char) : Bool :=
  c = ' ' || c = '\t' || c = '\n' || c = '\r'

/-- Go `strings.TrimSpace`, modelled on the character list. -/
def trimString (s : String) : String :=
  ⟨((s.toList.dropWhile isSpaceChar).reverse.dropWhile isSpaceChar).reverse⟩

/-- Go `strings.HasPrefix(s, "0")`: the first byte is `'0'`. -/
def startsWith0 (s : String) : Bool :=
  match s.toList with
  | [] => false
  | c :: _ => c = '0'

/-- The payee wallet-number format check of the source
(`strings.HasPrefix(n, "0") && len(n) == 11`). -/
def validGCash (s : String) : Bool :=
  startsWith0 s && s.length == 11

section Retry

/-- One HTTP attempt: `client.Do` either fails at the network level
(returning a nil response) or yields a response with a status code and body. -/
structure HttpResp where
  code : Nat
  body : String
deriving Repr, DecidableEq

inductive Attempt where
  | netErr
  | got (r : HttpResp)
deriving Repr, DecidableEq

/-- Result of the Go retry loop around a gateway call.
`failure` is the post-loop typed error path: it carries the status code of
the (still-assigned) last response and what the post-loop
`io.ReadAll(resp.Body)` returns — which is empty, because the loop's failure
branch already read and closed the body.  `panicked` is the post-loop path
with `resp == nil` (final attempt was a network error): the Go code
dereferences the nil response there. -/
inductive RetryOutcome where
  | success (r : HttpResp) (attempts : Nat) (sleeps : List Nat)
  | failure (lastCode : Nat) (lastBody : String) (attempts : Nat) (sleeps : List Nat)
  | panicked (attempts : Nat) (sleeps : List Nat)
deriving Repr, DecidableEq

def RetryOutcome.attempts : RetryOutcome → Nat
  | .success _ a _ => a
  | .failure _ _ a _ => a
  | .panicked a _ => a

/-- The body of `for retries := 3; retries > 0; retries--`:
`made` counts attempts already made (so `made = 3 - retries`), and the
sleep after a failed attempt is `time.Sleep(time.Second * (3 - retries))`,
i.e. `made` seconds. `last` mirrors the `resp` variable (nil after a
network error, since `resp, err = client.Do(req)` overwrites it). -/
def retryAux (allow : Nat → Bool) (atts : Nat → Attempt) :
    Nat → Option HttpResp → Nat → List Nat → RetryOutcome
  | 0, last, made, sleeps =>
    match last with
    | none => .panicked made sleeps
    | some r => .failure r.code "" made sleeps
  | retries + 1, _, made, sleeps =>
    match atts made with
    | .netErr => retryAux allow atts retries none (made + 1) (sleeps ++ [made])
    | .got r =>
      if allow r.code then .success r (made + 1) sleeps
      else retryAux allow atts retries (some r) (made + 1) (sleeps ++ [made])

def runRetry (allow : Nat → Bool) (atts : Nat → Attempt) : RetryOutcome :=
  retryAux allow atts 3 none 0 []

/-- Allow-list of the invoice-creation call (`part_002` line 386):
`http.StatusOK` only. -/
def invoiceAllow (code : Nat) : Bool := code == 200

/-- Allow-list of the eWallet-charge call (`part_003` line 293):
`http.StatusCreated` or `http.StatusAccepted`. -/
def chargeAllow (code : Nat) : Bool := code == 201 || code == 202

/-- Allow-list of the disbursement call in the invoice variant
(`part_002` line 584): `http.StatusCreated` or `http.StatusAccepted`. -/
def disbAllow (code : Nat) : Bool := code == 201 || code == 202

/-- Allow-list of the disbursement call in the charge variant
(`part_003` line 452): `http.StatusCreated` only. -/
def disbAllowV1 (code : Nat) : Bool := code == 201

end Retry

section Json

/-- A decoded `map[string]interface{}` value (webhook payloads and the
redactor's unmarshalled request bodies). -/
inductive JVal where
  | jstr (s : String)
  | jnum (q : Rat)
  | jbool (b : Bool)
  | jobj (fs : List (String × JVal))
  | jarr (xs : List JVal)
  | jnull

/-- Reading `m[k]` on a Go map (first binding wins; well-formed maps bind each key
once). -/
def lookupJ (m : List (String × JVal)) (k : String) : Option JVal :=
  (m.find? (fun kv => kv.1 == k)).map (fun kv => kv.2)

/-- Writing `m[k] = v` on a key already present. -/
def setJ (m : List (String × JVal)) (k : String) (v : JVal) :
    List (String × JVal) :=
  updateFirst (fun kv => kv.1 == k) (fun kv => (kv.1, v)) m

/-- The Go comma-ok string assertion `x, _ := v.(string)`: yields the
zero value `""` when the field is absent or not a string. -/
def asStr (v : Option JVal) : String :=
  match v with
  | some (.jstr s) => s
  | _ => ""

/-- The comma-ok assertion `x, ok := v.(string)` keeping the `ok` bit. -/
def asStr? (v : Option JVal) : Option String :=
  match v with
  | some (.jstr s) => some s
  | _ => none

/-- The comma-ok assertion `x, ok := v.(map[string]interface{})`. -/
def asObj? (v : Option JVal) : Option (List (String × JVal)) :=
  match v with
  | some (.jobj fs) => some fs
  | _ => none

end Json

section Gateway

/-- Decoded Xendit invoice-creation response (`part_002`). -/
structure InvoiceResp where
  id : String
  status : String
  invoiceURL : String
deriving Repr, DecidableEq

/-- Decoded Xendit eWallet-charge response (`part_003`). -/
structure ChargeResp where
  id : String
  status : String
  mobileDeeplinkCheckoutURL : String
  mobileWebCheckoutURL : String
  desktopWebCheckoutURL : String
deriving Repr, DecidableEq

/-- Decoded Xendit disbursement response (both variants). -/
structure DisbResp where
  id : String
  status : String
deriving Repr, DecidableEq

/-- The process environment and the external gateway, as seen by one run:
configuration strings (`os.Getenv`), per-call-site attempt streams indexed
by the call counter, `encoding/json` decoders for successful bodies, and
the `primitive.NewObjectID().Hex()` stream. -/
structure Env where
  xenditSecretKey : String
  renderExternalURL : String
  ngrokURL : String
  gwInvoice : Nat → Nat → Attempt
  decodeInvoice : String → Option InvoiceResp
  gwCharge : Nat → Nat → Attempt
  decodeCharge : String → Option ChargeResp
  gwDisb : Nat → Nat → Attempt
  decodeDisb : String → Option DisbResp
  freshId : Nat → String

end Gateway

section ServiceV2
/-! ## The invoice-based `PaymentService` (`src/unnamed/part_002`) -/

/-- From `part_002`, `UpdatePayment`: looks the record up by `reference_id`,
requires status exactly `PENDING`, sets it to `SUCCEEDED` and re-fetches.
The `userID` argument is unused in the source. -/
def UpdatePayment (now : Nat) (w : W) (paymentID : String) (_userID : String) :
    Except PayErr Payment × W :=
  match w.payments.find? (fun p => p.referenceId == paymentID) with
  | none => (.error .paymentNotFound, w)
  | some payment =>
    if payment.status != "PENDING" then
      (.error (.statusConflict payment.status), w)
    else
      let ps := updateFirst (fun p => p.referenceId == paymentID)
        (fun p => { p with status := "SUCCEEDED", updatedAt := now }) w.payments
      let w' : W := { w with payments := ps }
      match ps.find? (fun p => p.referenceId == paymentID) with
      | none => (.error .paymentNotFound, w')
      | some updated => (.ok updated, w')

/-- From `part_002`, `CreateDisbursement`: fetch by `_id`, gate on status
`SUCCEEDED`, resolve and re-validate the payee wallet number, call the
disbursement gateway (retry loop with allow-list 201/202), coerce an
unrecognized response status to `SUCCEEDED`, and write `disbursement_id`
and the new status onto the record. -/
def CreateDisbursement (env : Env) (now : Nat) (w : W) (paymentID0 : String) :
    Except PayErr Unit × W :=
  let paymentID := trimString paymentID0
  if !(validObjectId paymentID) then (.error .invalidIdFormat, w)
  else
    match w.payments.find? (fun p => p.id == paymentID) with
    | none => (.error .paymentNotFound, w)
    | some payment =>
      if payment.status != "SUCCEEDED" then
        (.error (.disburseConflict payment.status), w)
      else if !(validObjectId payment.payeeId) then (.error .invalidIdFormat, w)
      else
        match w.users.find? (fun u => u.id == payment.payeeId) with
        | none => (.error .payeeNotFound, w)
        | some payee =>
          if payee.gcashNumber == "" then (.error .gcashMissing, w)
          else if !(validGCash payee.gcashNumber) then (.error .gcashInvalid, w)
          else
            let callIdx := w.disbCalls
            let w1 : W := { w with disbCalls := w.disbCalls + 1 }
            match runRetry disbAllow (env.gwDisb callIdx) with
            | .panicked _ _ => (.error .gatewayPanic, w1)
            | .failure code body _ _ => (.error (.gatewayFailed code body), w1)
            | .success r _ _ =>
              match env.decodeDisb r.body with
              | none => (.error .decodeFailed, w1)
              | some disResp =>
                let st :=
                  if disResp.status != "PENDING" && disResp.status != "SUCCEEDED"
                  then "SUCCEEDED" else disResp.status
                let ps := updateFirst (fun p => p.id == paymentID)
                  (fun p => { p with disbursementId := disResp.id,
                                     status := st, updatedAt := now }) w1.payments
                (.ok (), { w1 with payments := ps })

/-- From `part_002`, `HandleWebhook`: classifies by the `event` discriminator.
Invoice lifecycle events look the record up by `invoice_id`; `PAID`/`SETTLED`
set `SUCCEEDED` and synchronously call `CreateDisbursement`; `EXPIRED` sets
`EXPIRED`; other statuses are a no-op.  `ph_disbursement.completed` coerces
an unrecognized status to `SUCCEEDED` and writes it through the record
matching `disbursement_id` without checking that one matched. -/
def HandleWebhook (env : Env) (now : Nat) (w : W)
    (payload : List (String × JVal)) : Except PayErr Unit × W :=
  match asStr? (lookupJ payload "event") with
  | none => (.error .invalidEvent, w)
  | some eventType =>
    if eventType == "invoice.created" || eventType == "invoice.paid" ||
       eventType == "invoice.expired" then
      match asObj? (lookupJ payload "data") with
      | none => (.error .invalidData, w)
      | some data =>
        let invoiceID := asStr (lookupJ data "id")
        let status := asStr (lookupJ data "status")
        match w.payments.find? (fun p => p.invoiceId == invoiceID) with
        | none => (.error (.webhookPaymentNotFound invoiceID), w)
        | some payment =>
          if status == "PAID" || status == "SETTLED" then
            let ps := updateFirst (fun p => p.invoiceId == invoiceID)
              (fun p => { p with status := "SUCCEEDED", updatedAt := now })
              w.payments
            CreateDisbursement env now { w with payments := ps } payment.id
          else if status == "EXPIRED" then
            let ps := updateFirst (fun p => p.invoiceId == invoiceID)
              (fun p => { p with status := "EXPIRED", updatedAt := now })
              w.payments
            (.ok (), { w with payments := ps })
          else (.ok (), w)
    else if eventType == "ph_disbursement.completed" then
      match asObj? (lookupJ payload "data") with
      | none => (.error .invalidData, w)
      | some data =>
        let disID := asStr (lookupJ data "id")
        let status0 := asStr (lookupJ data "status")
        let status :=
          if status0 != "PENDING" && status0 != "SUCCEEDED"
          then "SUCCEEDED" else status0
        let ps := updateFirst (fun p => p.disbursementId == disID)
          (fun p => { p with status := status, updatedAt := now }) w.payments
        (.ok (), { w with payments := ps })
    else (.ok (), w)

/-- From `part_002`, `CreatePayment` (invoice variant).  After input validation the
payee id is overwritten with the hard-coded `"68d6aadf4ee098645ac87d5d"`
(source line 287).  A gateway response status outside
`{PENDING, PAID, SETTLED, EXPIRED}` is rejected with an error (not coerced). -/
def CreatePayment (env : Env) (now : Nat) (w : W)
    (payerID0 payeeID0 : String) (amount : Rat) (title0 description0 : String) :
    Except PayErr Payment × W :=
  let payerID := trimString payerID0
  let payeeID0' := trimString payeeID0
  let title := trimString title0
  let description := trimString description0
  if payerID == "" || payeeID0' == "" then (.error .emptyIds, w)
  else if amount ≤ 0 then (.error .amountNotPositive, w)
  else if title == "" || description == "" then (.error .emptyTitleOrDescription, w)
  else
    let payeeID := "68d6aadf4ee098645ac87d5d"
    if env.xenditSecretKey == "" then (.error .envMissing, w)
    else if !(validObjectId payerID) then (.error .invalidIdFormat, w)
    else if !(validObjectId payeeID) then (.error .invalidIdFormat, w)
    else
      match w.users.find? (fun u => u.id == payerID) with
      | none => (.error .payerNotFound, w)
      | some payer =>
        match w.users.find? (fun u => u.id == payeeID) with
        | none => (.error .payeeNotFound, w)
        | some payee =>
          if payer.email == "" then (.error .emailMissing, w)
          else if payee.gcashNumber == "" then (.error .gcashMissing, w)
          else if !(validGCash payee.gcashNumber) then (.error .gcashInvalid, w)
          else
            let externalID := env.freshId w.idCount
            let callIdx := w.invCalls
            let w1 : W := { w with idCount := w.idCount + 1,
                                   invCalls := w.invCalls + 1 }
            match runRetry invoiceAllow (env.gwInvoice callIdx) with
            | .panicked _ _ => (.error .gatewayPanic, w1)
            | .failure code body _ _ => (.error (.gatewayFailed code body), w1)
            | .success r _ _ =>
              match env.decodeInvoice r.body with
              | none => (.error .decodeFailed, w1)
              | some invoiceResp =>
                if invoiceResp.invoiceURL == "" then (.error .noCheckoutURL, w1)
                else if !(invoiceResp.status == "PENDING" ||
                          invoiceResp.status == "PAID" ||
                          invoiceResp.status == "SETTLED" ||
                          invoiceResp.status == "EXPIRED") then
                  (.error (.invalidStatusFromGateway invoiceResp.status), w1)
                else
                  let payment : Payment :=
                    { id := externalID, referenceId := externalID,
                      payerId := payerID, payeeId := payeeID,
                      amount := amount, title := title,
                      description := description,
                      status := invoiceResp.status,
                      invoiceId := invoiceResp.id, chargeId := "",
                      disbursementId := "",
                      checkoutUrl := invoiceResp.invoiceURL,
                      createdAt := now, updatedAt := now }
                  (.ok payment, { w1 with payments := w1.payments ++ [payment] })

end ServiceV2

section ServiceV1
/-! ## The charge-based `PaymentService` (`src/unnamed/part_003`) -/

/-- From `part_003`, `UpdatePayment`: same `PENDING`-only gate, but the lookup is
by `_id` and the id string is used as-is (`paymentObjID := paymentID`,
no ObjectID validation). -/
def UpdatePaymentV1 (now : Nat) (w : W) (paymentID : String) (_userID : String) :
    Except PayErr Payment × W :=
  match w.payments.find? (fun p => p.id == paymentID) with
  | none => (.error .paymentNotFound, w)
  | some payment =>
    if payment.status != "PENDING" then
      (.error (.statusConflict payment.status), w)
    else
      let ps := updateFirst (fun p => p.id == paymentID)
        (fun p => { p with status := "SUCCEEDED", updatedAt := now }) w.payments
      let w' : W := { w with payments := ps }
      match ps.find? (fun p => p.id == paymentID) with
      | none => (.error .paymentNotFound, w')
      | some updated => (.ok updated, w')

/-- From `part_003`, `CreateDisbursement`: same `SUCCEEDED` gate, but no wallet
number re-validation, and the allow-list is `http.StatusCreated` only. -/
def CreateDisbursementV1 (env : Env) (now : Nat) (w : W) (paymentID0 : String) :
    Except PayErr Unit × W :=
  let paymentID := trimString paymentID0
  if !(validObjectId paymentID) then (.error .invalidIdFormat, w)
  else
    match w.payments.find? (fun p => p.id == paymentID) with
    | none => (.error .paymentNotFound, w)
    | some payment =>
      if payment.status != "SUCCEEDED" then
        (.error (.disburseConflict payment.status), w)
      else if !(validObjectId payment.payeeId) then (.error .invalidIdFormat, w)
      else
        match w.users.find? (fun u => u.id == payment.payeeId) with
        | none => (.error .payeeNotFound, w)
        | some _payee =>
          let callIdx := w.disbCalls
          let w1 : W := { w with disbCalls := w.disbCalls + 1 }
          match runRetry disbAllowV1 (env.gwDisb callIdx) with
          | .panicked _ _ => (.error .gatewayPanic, w1)
          | .failure code body _ _ => (.error (.gatewayFailed code body), w1)
          | .success r _ _ =>
            match env.decodeDisb r.body with
            | none => (.error .decodeFailed, w1)
            | some disResp =>
              let st :=
                if disResp.status != "PENDING" && disResp.status != "SUCCEEDED"
                then "SUCCEEDED" else disResp.status
              let ps := updateFirst (fun p => p.id == paymentID)
                (fun p => { p with disbursementId := disResp.id,
                                   status := st, updatedAt := now }) w1.payments
              (.ok (), { w1 with payments := ps })

/-- From `part_003`, `CreatePayment` (eWallet charge variant).  Validates the
*payer's* wallet number, calls the charge endpoint (allow-list 201/202),
and coerces a response status outside `{PENDING, SUCCEEDED}` to `PENDING`
before persisting. -/
def CreatePaymentCharge (env : Env) (now : Nat) (w : W)
    (payerID0 payeeID0 : String) (amount : Rat) (title0 description0 : String) :
    Except PayErr Payment × W :=
  let payerID := trimString payerID0
  let payeeID := trimString payeeID0
  let title := trimString title0
  let description := trimString description0
  if payerID == "" || payeeID == "" then (.error .emptyIds, w)
  else if amount ≤ 0 then (.error .amountNotPositive, w)
  else if title == "" then (.error .emptyTitle, w)
  else if description == "" then (.error .emptyDescription, w)
  else if !(validObjectId payerID) then (.error .invalidIdFormat, w)
  else if !(validObjectId payeeID) then (.error .invalidIdFormat, w)
  else
    match w.users.find? (fun u => u.id == payerID) with
    | none => (.error .payerNotFound, w)
    | some payer =>
      match w.users.find? (fun u => u.id == payeeID) with
      | none => (.error .payeeNotFound, w)
      | some payee =>
        if payer.gcashNumber == "" || payee.gcashNumber == "" then
          (.error .gcashMissing, w)
        else if !(validGCash payer.gcashNumber) then (.error .gcashInvalid, w)
        else if env.ngrokURL == "" then (.error .envMissing, w)
        else
          let referenceID := env.freshId w.idCount
          let callIdx := w.chargeCalls
          let w1 : W := { w with idCount := w.idCount + 1,
                                 chargeCalls := w.chargeCalls + 1 }
          match runRetry chargeAllow (env.gwCharge callIdx) with
          | .panicked _ _ => (.error .gatewayPanic, w1)
          | .failure code body _ _ => (.error (.gatewayFailed code body), w1)
          | .success r _ _ =>
            match env.decodeCharge r.body with
            | none => (.error .decodeFailed, w1)
            | some chargeResp =>
              let checkoutURL :=
                if chargeResp.mobileDeeplinkCheckoutURL == ""
                then chargeResp.mobileWebCheckoutURL
                else chargeResp.mobileDeeplinkCheckoutURL
              if checkoutURL == "" then (.error .noCheckoutURL, w1)
              else
                let st :=
                  if chargeResp.status != "PENDING" &&
                     chargeResp.status != "SUCCEEDED"
                  then "PENDING" else chargeResp.status
                let paymentId := env.freshId w1.idCount
                let w2 : W := { w1 with idCount := w1.idCount + 1 }
                let payment : Payment :=
                  { id := paymentId, referenceId := referenceID,
                    payerId := payerID, payeeId := payeeID,
                    amount := amount, title := title,
                    description := description, status := st,
                    invoiceId := "", chargeId := chargeResp.id,
                    disbursementId := "", checkoutUrl := checkoutURL,
                    createdAt := now, updatedAt := now }
                (.ok payment, { w2 with payments := w2.payments ++ [payment] })

end ServiceV1

section Redactor
/-! ## `maskSensitiveFields` (`src/unnamed/part_002` lines 733–764) -/

/-- Outcome of one email-masking block: leave the field alone, overwrite it,
or hit the out-of-range access `parts[1]` (Go panic) when the address has
no `"@"` but a local part longer than 3 bytes. -/
inductive MaskRes where
  | keep
  | write (s : String)
  | panic
deriving Repr, DecidableEq

/-- Go `strings.Split` for the one-byte separator `"@"`, on the character
list (the data here is ASCII, where Go bytes and characters agree);
always returns at least one piece. -/
def splitAtSep (sep : Char) : List Char → List (List Char)
  | [] => [[]]
  | c :: cs =>
    if c = sep then [] :: splitAtSep sep cs
    else
      match splitAtSep sep cs with
      | [] => [c] :: []
      | p :: ps => (c :: p) :: ps

def splitString (sep : Char) (s : String) : List String :=
  (splitAtSep sep s.toList).map (fun cs => ⟨cs⟩)

/-- The email block of `maskSensitiveFields`:
`parts := strings.Split(email, "@")`;
`if len(parts) > 0 && len(parts[0]) > 3 { ... parts[0][:3] + "****@" + parts[1] }`.
The `parts[1]` access is out of range (a Go panic, `MaskRes.panic` here)
exactly when the address contains no `"@"`. -/
def maskEmailValue (email : String) : MaskRes :=
  let parts := splitString '@' email
  if parts.length > 0 && (parts.headD "").length > 3 then
    match parts[1]? with
    | some domain => .write ((parts.headD "").take 3 ++ "****@" ++ domain)
    | none => .panic
  else .keep

/-- The mask `"****" + s[len(s)-4:]` (the guard `len > 4` stays at the call sites,
as in the source). -/
def maskAccountValue (s : String) : String :=
  "****" ++ s.drop (s.length - 4)

/-- The redactor `maskSensitiveFields` on the unmarshalled request body.  `none` models
the Go panic from the out-of-range `parts[1]` access; the enclosing
`json.Unmarshal`/`json.Marshal` round-trip is the identity on this
representation. -/
def maskSensitiveFields (req : List (String × JVal)) :
    Option (List (String × JVal)) :=
  let s1 : Option (List (String × JVal)) :=
    match asStr? (lookupJ req "payer_email") with
    | some email =>
      match maskEmailValue email with
      | .panic => none
      | .keep => some req
      | .write m => some (setJ req "payer_email" (.jstr m))
    | none => some req
  match s1 with
  | none => none
  | some r1 =>
    let s2 : Option (List (String × JVal)) :=
      match asObj? (lookupJ r1 "customer") with
      | some c =>
        let c1 :=
          match asStr? (lookupJ c "mobile_number") with
          | some mobile =>
            if mobile.length > 4 then
              setJ c "mobile_number" (.jstr (maskAccountValue mobile))
            else c
          | none => c
        match asStr? (lookupJ c1 "email") with
        | some em =>
          match maskEmailValue em with
          | .panic => none
          | .keep => some (setJ r1 "customer" (.jobj c1))
          | .write m =>
            some (setJ r1 "customer" (.jobj (setJ c1 "email" (.jstr m))))
        | none => some (setJ r1 "customer" (.jobj c1))
      | none => some r1
    match s2 with
    | none => none
    | some r2 =>
      match asStr? (lookupJ r2 "account_number") with
      | some acct =>
        if acct.length > 4 then
          some (setJ r2 "account_number" (.jstr (maskAccountValue acct)))
        else some r2
      | none => some r2

end Redactor

section C8Proofs

/-- Full characterization of the Go retry loop, by exhausting the at most
three attempts: the loop makes at most 3 attempts; a success carries an
allow-listed response and was preceded by one sleep per earlier failed
attempt, of `0, 1, …` seconds; exhaustion with a final HTTP response yields
the typed failure with that response's status code and an empty re-read
body after sleeps of `0, 1, 2` seconds; exhaustion with a final network
error leaves `resp == nil` and the post-loop code dereferences it. -/
theorem runRetry_cases (allow : Nat → Bool) (atts : Nat → Attempt) :
    ((runRetry allow atts).attempts ≤ 3) ∧
    (∀ r a s, runRetry allow atts = .success r a s →
        allow r.code = true ∧ s = List.range (a - 1)) ∧
    (∀ c b a s, runRetry allow atts = .failure c b a s →
        a = 3 ∧ s = [0, 1, 2] ∧ b = "" ∧
        ∃ r, atts 2 = .got r ∧ r.code = c ∧ allow r.code = false) ∧
    (∀ a s, runRetry allow atts = .panicked a s →
        atts 2 = .netErr ∧ a = 3 ∧ s = [0, 1, 2]) := by
  simp only [runRetry]
  rcases h0 : atts 0 with _ | r0 <;>
  rcases h1 : atts 1 with _ | r1 <;>
  rcases h2 : atts 2 with _ | r2 <;>
  simp only [retryAux, h0, h1, h2] <;>
  (refine ⟨?_, ?_, ?_, ?_⟩ <;> intros <;> (try split_ifs at *) <;>
    (try simp_all [RetryOutcome.attempts]) <;> casesm* _ ∧ _ <;> subst_vars <;>
    simp [List.range_succ])

end C8Proofs

/-- C8 (amended).  Every gateway creation call (invoice/charge creation and
disbursement creation) is attempted at most 3 times and succeeds only on its
operation-specific status-code allow-list (200 for invoice creation; 201/202
for charge creation and for the invoice-variant disbursement; 201 for the
charge-variant disbursement).  The sleeps between attempts increase linearly
with the number of attempts already made (0s, 1s, 2s) — not proportionally
to the number of attempts remaining.  After the attempts are exhausted a
typed failure carrying the last response status is returned, but with an
empty body snippet (the loop already consumed the body); and when the final
attempt failed at the network level the post-loop code dereferences the nil
response instead of returning a typed failure. -/
theorem retry_c8_amended :
    (∀ (allow : Nat → Bool) (atts : Nat → Attempt),
      ((runRetry allow atts).attempts ≤ 3) ∧
      (∀ r a s, runRetry allow atts = .success r a s →
          allow r.code = true ∧ s = List.range (a - 1)) ∧
      (∀ c b a s, runRetry allow atts = .failure c b a s →
          a = 3 ∧ s = [0, 1, 2] ∧ b = "" ∧
          ∃ r, atts 2 = .got r ∧ r.code = c ∧ allow r.code = false) ∧
      (∀ a s, runRetry allow atts = .panicked a s →
          atts 2 = .netErr ∧ a = 3 ∧ s = [0, 1, 2])) ∧
    (∀ atts r a s, runRetry invoiceAllow atts = .success r a s →
        r.code = 200) ∧
    (∀ atts r a s, runRetry chargeAllow atts = .success r a s →
        r.code = 201 ∨ r.code = 202) ∧
    (∀ atts r a s, runRetry disbAllow atts = .success r a s →
        r.code = 201 ∨ r.code = 202) ∧
    (∀ atts r a s, runRetry disbAllowV1 atts = .success r a s →
        r.code = 201) := by
  refine ⟨fun allow atts => runRetry_cases allow atts, ?_, ?_, ?_, ?_⟩ <;>
    intro atts r a s h <;>
    have hc := ((runRetry_cases _ atts).2.1 r a s h).1 <;>
    simp [invoiceAllow, chargeAllow, disbAllow, disbAllowV1] at hc <;>
    omega

/-- Witness for `retry_c8_amended`: a gateway that answers 500 with body
`"oops"` on every attempt exhausts the loop; the theorem's failure clause
applies with every hypothesis discharged at this concrete input. -/
theorem retry_c8_amended_witness :
    (3 : Nat) = 3 ∧ ([0, 1, 2] : List Nat) = [0, 1, 2] ∧ ("" : String) = "" ∧
    ∃ r, (fun _ : Nat => Attempt.got ⟨500, "oops"⟩) 2 = .got r ∧
      r.code = 500 ∧ invoiceAllow r.code = false :=
  (retry_c8_amended.1 invoiceAllow (fun _ => .got ⟨500, "oops"⟩)).2.2.1
    500 "" 3 [0, 1, 2] (by decide)

/-- Counterexample to C8 as stated.  With every attempt answering 500 and
body `"oops"`, the loop sleeps 0s, 1s, 2s after attempts 1, 2, 3 — while
the attempts remaining at those points are 2, 1, 0, so no proportionality
constant `k` relates the sleeps to the attempts remaining — and the typed
failure carries an empty body, not the last response body `"oops"`.
Moreover with every attempt failing at the network level the loop ends with
a nil-response dereference, not a typed failure. -/
theorem retry_c8_counterexample :
    runRetry disbAllow (fun _ => .got ⟨500, "oops"⟩) =
      .failure 500 "" 3 [0, 1, 2] ∧
    "oops" ≠ "" ∧
    (¬ ∃ k : Nat, 0 = k * 2 ∧ 1 = k * 1 ∧ 2 = k * 0) ∧
    runRetry disbAllow (fun _ => .netErr) = .panicked 3 [0, 1, 2] := by
  refine ⟨by decide, by decide, ?_, by decide⟩
  rintro ⟨k, -, -, h2⟩
  omega

section C9C10Proofs

/-- C9 (confirmed).  The redactor masks email local-parts by keeping the
first 3 characters and masking the rest before the `"@"`, and masks
account/mobile numbers by keeping only the last 4 digits: on a body with
`payer_email = "abcdef@example.com"` the masked value is
`"abc****@example.com"`, and on a body with
`account_number = "09123456789"` the masked value is `"****6789"`
(also checked on the nested `customer.email` / `customer.mobile_number`
fields). -/
theorem maskSensitiveFields_c9 :
    maskSensitiveFields [("payer_email", .jstr "abcdef@example.com")] =
      some [("payer_email", .jstr "abc****@example.com")] ∧
    maskSensitiveFields [("account_number", .jstr "09123456789")] =
      some [("account_number", .jstr "****6789")] ∧
    maskSensitiveFields
        [("customer", .jobj [("email", .jstr "abcdef@example.com"),
                             ("mobile_number", .jstr "09123456789")])] =
      some [("customer", .jobj [("email", .jstr "abc****@example.com"),
                                ("mobile_number", .jstr "****6789")])] := by
  refine ⟨rfl, rfl, rfl⟩

/-- C10 (confirmed).  `maskSensitiveFields` is not total on its public
input: on a body whose `payer_email` is a string with no `"@"` and longer
than 3 characters — here `"abcdef"` — `strings.Split` yields a
single-element slice, the guard `len(parts) > 0 && len(parts[0]) > 3`
passes, and the `parts[1]` access is out of range: the function panics
(modelled as `none`) instead of returning a masked body. -/
theorem maskSensitiveFields_c10 :
    (splitString '@' "abcdef").length = 1 ∧
    "abcdef".length > 3 ∧
    maskSensitiveFields [("payer_email", .jstr "abcdef")] = none := by
  refine ⟨rfl, by decide, rfl⟩

end C9C10Proofs

section Payloads

/-- An invoice-lifecycle webhook payload `{event, data: {id, status}}`. -/
def lifecyclePayload (ev i st : String) : List (String × JVal) :=
  [("event", .jstr ev), ("data", .jobj [("id", .jstr i), ("status", .jstr st)])]

/-- The "paid" webhook for an invoice id. -/
def paidPayload (i : String) : List (String × JVal) :=
  lifecyclePayload "invoice.paid" i "PAID"

/-- A disbursement-completion webhook payload. -/
def disbCompletedPayload (d st : String) : List (String × JVal) :=
  [("event", .jstr "ph_disbursement.completed"),
   ("data", .jobj [("id", .jstr d), ("status", .jstr st)])]

end Payloads

section Demo
/-! Concrete executable scenario used by witnesses and counterexamples. -/

def payerDemo : User :=
  { id := "aaaaaaaaaaaaaaaaaaaaaaaa", fullName := "Payer",
    email := "payer@example.com", gcashNumber := "09123456789" }

/-- The user behind the hard-coded payee id of `part_002` line 287. -/
def payeeDemo : User :=
  { id := "68d6aadf4ee098645ac87d5d", fullName := "Payee",
    email := "payee@example.com", gcashNumber := "09123456789" }

/-- A cooperating gateway: invoice creation answers 200/`PENDING`,
charge and disbursement creation answer 201, the disbursement is `d1`
with status `SUCCEEDED`. -/
def envDemo : Env :=
  { xenditSecretKey := "sk", renderExternalURL := "http://r.example",
    ngrokURL := "http://n.example",
    gwInvoice := fun _ _ => .got ⟨200, "invoice-body"⟩,
    decodeInvoice := fun _ => some ⟨"inv1", "PENDING", "http://pay.example"⟩,
    gwCharge := fun _ _ => .got ⟨201, "charge-body"⟩,
    decodeCharge := fun _ => some ⟨"ch1", "PENDING", "dl://x", "http://mw", "http://dw"⟩,
    gwDisb := fun _ _ => .got ⟨201, "disb-body"⟩,
    decodeDisb := fun _ => some ⟨"d1", "SUCCEEDED"⟩,
    freshId := fun n =>
      if n == 0 then "bbbbbbbbbbbbbbbbbbbbbbbb" else "cccccccccccccccccccccccc" }

def w0Demo : W := { payments := [], users := [payerDemo, payeeDemo] }

/-- After `CreatePayment`: one `PENDING` record with invoice id `inv1`. -/
def w1Demo : W :=
  (CreatePayment envDemo 0 w0Demo "aaaaaaaaaaaaaaaaaaaaaaaa" "ignored" 500 "T" "D").2

/-- After the redirect confirmation `UpdatePayment`: the record is `SUCCEEDED`. -/
def w2Demo : W := (UpdatePayment 1 w1Demo "bbbbbbbbbbbbbbbbbbbbbbbb" "user").2

/-- After `CreateDisbursement`: the record is `SUCCEEDED` with
disbursement id `d1` — fully disbursed, terminal per the spec. -/
def w3Demo : W := (CreateDisbursement envDemo 2 w2Demo "bbbbbbbbbbbbbbbbbbbbbbbb").2

/-- After a disbursement-completion webhook carrying status `PENDING`. -/
def w4Demo : W :=
  (HandleWebhook envDemo 3 w3Demo (disbCompletedPayload "d1" "PENDING")).2

end Demo

/-- C2 (confirmed).  `CreateDisbursement` — in both service variants —
invoked on a payment whose current status is `PENDING` or `EXPIRED`
(anything other than exactly `SUCCEEDED`) always returns an error, issues
zero gateway calls, and leaves the state (in particular the payment record
and the disbursement call counter) unchanged. -/
theorem createDisbursement_gate_c2 (env : Env) (now : Nat) (w : W)
    (pid : String) (p : Payment)
    (hfind : w.payments.find? (fun q => q.id == trimString pid) = some p)
    (hst : p.status = "PENDING" ∨ p.status = "EXPIRED") :
    (∃ e, CreateDisbursement env now w pid = (.error e, w)) ∧
    (∃ e, CreateDisbursementV1 env now w pid = (.error e, w)) := by
  have hgate : (p.status != "SUCCEEDED") = true := by
    rcases hst with h | h <;> rw [h] <;> decide
  cases hv : validObjectId (trimString pid) with
  | false =>
    exact ⟨⟨.invalidIdFormat, by simp [CreateDisbursement, hv]⟩,
           ⟨.invalidIdFormat, by simp [CreateDisbursementV1, hv]⟩⟩
  | true =>
    exact ⟨⟨.disburseConflict p.status, by simp [CreateDisbursement, hv, hfind, hgate]⟩,
           ⟨.disburseConflict p.status, by simp [CreateDisbursementV1, hv, hfind, hgate]⟩⟩

/-- A single `EXPIRED` record for the gate witness. -/
def pExpDemo : Payment :=
  { id := "dddddddddddddddddddddddd", referenceId := "refE",
    payerId := "aaaaaaaaaaaaaaaaaaaaaaaa", payeeId := "68d6aadf4ee098645ac87d5d",
    amount := 5, title := "T", description := "D", status := "EXPIRED",
    invoiceId := "invE", chargeId := "", disbursementId := "",
    checkoutUrl := "u", createdAt := 0, updatedAt := 0 }

def wExpDemo : W := { payments := [pExpDemo], users := [payerDemo, payeeDemo] }

/-- Witness for `createDisbursement_gate_c2` at the concrete `EXPIRED` record. -/
theorem createDisbursement_gate_c2_witness :
    (∃ e, CreateDisbursement envDemo 0 wExpDemo "dddddddddddddddddddddddd" =
      (.error e, wExpDemo)) ∧
    (∃ e, CreateDisbursementV1 envDemo 0 wExpDemo "dddddddddddddddddddddddd" =
      (.error e, wExpDemo)) :=
  createDisbursement_gate_c2 envDemo 0 wExpDemo "dddddddddddddddddddddddd"
    pExpDemo (by decide) (Or.inr rfl)

/-- The status/`updated_at` update of the confirmation path preserves the
lookup keys, so the post-update re-fetch finds the updated record. -/
theorem update_refetch (pred : Payment → Bool) (now : Nat)
    (hkey : ∀ q : Payment,
      pred ({ q with status := "SUCCEEDED", updatedAt := now }) = pred q)
    (l : List Payment) (p : Payment) (h : l.find? pred = some p) :
    (updateFirst pred (fun q => { q with status := "SUCCEEDED", updatedAt := now })
        l).find? pred =
      some ({ p with status := "SUCCEEDED", updatedAt := now }) :=
  find?_updateFirst pred _ (fun x hx => by rw [hkey x]; exact hx) l p h

/-- C4 (confirmed).  `UpdatePayment` — in both variants — succeeds only
when the record exists (by `reference_id` in the invoice variant, by `_id`
in the charge variant) and its status is exactly `PENDING`, in which case
the record transitions to `SUCCEEDED`; called on an already-`SUCCEEDED`
record it fails with the status-conflict error and changes nothing. -/
theorem updatePayment_c4 (now : Nat) (w : W) (pid uid : String) :
    (∀ p', (UpdatePayment now w pid uid).1 = .ok p' →
      ∃ q, w.payments.find? (fun p => p.referenceId == pid) = some q ∧
        q.status = "PENDING" ∧
        p' = { q with status := "SUCCEEDED", updatedAt := now }) ∧
    (∀ q, w.payments.find? (fun p => p.referenceId == pid) = some q →
      q.status = "SUCCEEDED" →
      UpdatePayment now w pid uid = (.error (.statusConflict "SUCCEEDED"), w)) ∧
    (∀ p', (UpdatePaymentV1 now w pid uid).1 = .ok p' →
      ∃ q, w.payments.find? (fun p => p.id == pid) = some q ∧
        q.status = "PENDING" ∧
        p' = { q with status := "SUCCEEDED", updatedAt := now }) ∧
    (∀ q, w.payments.find? (fun p => p.id == pid) = some q →
      q.status = "SUCCEEDED" →
      UpdatePaymentV1 now w pid uid = (.error (.statusConflict "SUCCEEDED"), w)) := by
  refine ⟨?_, ?_, ?_, ?_⟩
  · intro p' h
    cases hf : w.payments.find? (fun p => p.referenceId == pid) with
    | none => simp [UpdatePayment, hf] at h
    | some q =>
      cases hgate : (q.status != "PENDING") with
      | true => simp [UpdatePayment, hf, hgate] at h
      | false =>
        have hq : q.status = "PENDING" := by
          simpa using hgate
        have hre := update_refetch (fun p => p.referenceId == pid) now
          (fun _ => rfl) w.payments q hf
        refine ⟨q, rfl, hq, ?_⟩
        simp [UpdatePayment, hf, hgate, hre] at h
        exact h.symm
  · intro q hf hs
    have hgate : (q.status != "PENDING") = true := by rw [hs]; decide
    simp [UpdatePayment, hf, hgate, hs]
  · intro p' h
    cases hf : w.payments.find? (fun p => p.id == pid) with
    | none => simp [UpdatePaymentV1, hf] at h
    | some q =>
      cases hgate : (q.status != "PENDING") with
      | true => simp [UpdatePaymentV1, hf, hgate] at h
      | false =>
        have hq : q.status = "PENDING" := by
          simpa using hgate
        have hre := update_refetch (fun p => p.id == pid) now
          (fun _ => rfl) w.payments q hf
        refine ⟨q, rfl, hq, ?_⟩
        simp [UpdatePaymentV1, hf, hgate, hre] at h
        exact h.symm
  · intro q hf hs
    have hgate : (q.status != "PENDING") = true := by rw [hs]; decide
    simp [UpdatePaymentV1, hf, hgate, hs]

/-- Witness for `updatePayment_c4`: a second confirmation on the
already-`SUCCEEDED` record of the demo scenario fails with the conflict
error and leaves the state unchanged, in both variants. -/
theorem updatePayment_c4_witness :
    UpdatePayment 7 w2Demo "bbbbbbbbbbbbbbbbbbbbbbbb" "user" =
      (.error (.statusConflict "SUCCEEDED"), w2Demo) ∧
    UpdatePaymentV1 7 w2Demo "bbbbbbbbbbbbbbbbbbbbbbbb" "user" =
      (.error (.statusConflict "SUCCEEDED"), w2Demo) :=
  ⟨(updatePayment_c4 7 w2Demo "bbbbbbbbbbbbbbbbbbbbbbbb" "user").2.1
      (w2Demo.payments.head (by decide)) (by decide) (by decide),
   (updatePayment_c4 7 w2Demo "bbbbbbbbbbbbbbbbbbbbbbbb" "user").2.2.2
      (w2Demo.payments.head (by decide)) (by decide) (by decide)⟩

/-- C6 (amended).  An invoice-lifecycle webhook whose charge/invoice id
matches no local payment record is a hard not-found failure with no state
change; but a disbursement-completion webhook whose disbursement id matches
no record is *silently accepted*: the conditional update matches nothing,
its result is not checked, and `HandleWebhook` returns success with the
state unchanged. -/
theorem handleWebhook_unknown_c6 (env : Env) (now : Nat) (w : W)
    (ev i d st : String)
    (hEv : ev = "invoice.created" ∨ ev = "invoice.paid" ∨ ev = "invoice.expired")
    (hInv : w.payments.find? (fun p => p.invoiceId == i) = none)
    (hDis : w.payments.find? (fun p => p.disbursementId == d) = none) :
    HandleWebhook env now w (lifecyclePayload ev i st) =
      (.error (.webhookPaymentNotFound i), w) ∧
    HandleWebhook env now w (disbCompletedPayload d st) = (.ok (), w) := by
  constructor
  · have hEvb : (ev == "invoice.created" || ev == "invoice.paid" ||
        ev == "invoice.expired") = true := by
      rcases hEv with h | h | h <;> subst h <;> decide
    simp [HandleWebhook, lifecyclePayload, lookupJ, asStr?, asObj?, asStr,
      hEvb, hInv]
  · simp [HandleWebhook, disbCompletedPayload, lookupJ, asStr?, asObj?, asStr]
    rw [updateFirst_of_find?_none _ _ _ hDis]

/-- Witness for `handleWebhook_unknown_c6` on the empty store. -/
theorem handleWebhook_unknown_c6_witness :
    HandleWebhook envDemo 0 w0Demo (lifecyclePayload "invoice.paid" "invX" "PAID") =
      (.error (.webhookPaymentNotFound "invX"), w0Demo) ∧
    HandleWebhook envDemo 0 w0Demo (disbCompletedPayload "dX" "SUCCEEDED") =
      (.ok (), w0Demo) :=
  handleWebhook_unknown_c6 envDemo 0 w0Demo "invoice.paid" "invX" "dX"
    "PAID" (Or.inr (Or.inl rfl)) (by decide) (by decide)

/-- Counterexample to C6 as stated: on the empty store, a
disbursement-completion event whose disbursement id matches no record is
*not* a hard not-found failure — `HandleWebhook` silently succeeds with no
state change. -/
theorem handleWebhook_unknown_c6_counterexample :
    HandleWebhook envDemo 0 w0Demo (disbCompletedPayload "dX" "SUCCEEDED") =
      (.ok (), w0Demo) := by
  decide

/-- C7 (confirmed).  The payee wallet number must start with the literal
digit `0` and be exactly 11 characters: the check accepts `"09123456789"`
and rejects `"12345678901"` and `"091234567"`.  In an otherwise well-formed
call, an invalid payee wallet number makes `CreatePayment` — and, again,
`CreateDisbursement` — of the invoice variant fail with the wallet-format
error *before* any gateway call: the state, including every gateway call
counter, is returned unchanged. -/
theorem wallet_validation_c7 :
    validGCash "09123456789" = true ∧
    validGCash "12345678901" = false ∧
    validGCash "091234567" = false ∧
    (∀ (env : Env) (now : Nat) (w : W) (payerID payeeID : String)
       (amount : Rat) (title description : String) (payer payee : User),
      (trimString payerID == "" || trimString payeeID == "") = false →
      ¬ amount ≤ 0 →
      (trimString title == "" || trimString description == "") = false →
      (env.xenditSecretKey == "") = false →
      validObjectId (trimString payerID) = true →
      w.users.find? (fun u => u.id == trimString payerID) = some payer →
      w.users.find? (fun u => u.id == "68d6aadf4ee098645ac87d5d") = some payee →
      (payer.email == "") = false →
      (payee.gcashNumber == "") = false →
      validGCash payee.gcashNumber = false →
      CreatePayment env now w payerID payeeID amount title description =
        (.error .gcashInvalid, w)) ∧
    (∀ (env : Env) (now : Nat) (w : W) (pid : String) (p : Payment) (payee : User),
      validObjectId (trimString pid) = true →
      w.payments.find? (fun q => q.id == trimString pid) = some p →
      p.status = "SUCCEEDED" →
      validObjectId p.payeeId = true →
      w.users.find? (fun u => u.id == p.payeeId) = some payee →
      (payee.gcashNumber == "") = false →
      validGCash payee.gcashNumber = false →
      CreateDisbursement env now w pid = (.error .gcashInvalid, w)) := by
  refine ⟨by decide, by decide, by decide, ?_, ?_⟩
  · intro env now w payerID payeeID amount title description payer payee
      h1 h2 h3 h4 h5 h6 h7 h8 h9 hbad
    have hHard : validObjectId "68d6aadf4ee098645ac87d5d" = true := by decide
    simp only [CreatePayment, h1, Bool.false_eq_true, if_false, if_neg h2,
      h3, h4, h5, hHard, Bool.not_true, h6, h7, h8, h9, hbad, Bool.not_false,
      if_true]
  · intro env now w pid p payee hv hfind hst hpo hpayee h8 hbad
    have hgate : ("SUCCEEDED" != "SUCCEEDED") = false := by decide
    simp only [CreateDisbursement, hv, Bool.not_true, Bool.false_eq_true,
      if_false, hfind, hst, hgate, hpo, hpayee, h8, hbad, Bool.not_false,
      if_true]

/-- A payee whose wallet number does not start with `0`. -/
def payeeBadDemo : User :=
  { id := "68d6aadf4ee098645ac87d5d", fullName := "Payee",
    email := "payee@example.com", gcashNumber := "12345678901" }

/-- A `SUCCEEDED` record whose payee has the malformed wallet number. -/
def pSuccBadDemo : Payment :=
  { id := "dddddddddddddddddddddddd", referenceId := "refS",
    payerId := "aaaaaaaaaaaaaaaaaaaaaaaa", payeeId := "68d6aadf4ee098645ac87d5d",
    amount := 5, title := "T", description := "D", status := "SUCCEEDED",
    invoiceId := "invS", chargeId := "", disbursementId := "",
    checkoutUrl := "u", createdAt := 0, updatedAt := 0 }

def wBadDemo : W := { payments := [pSuccBadDemo], users := [payerDemo, payeeBadDemo] }

/-- Witness for `wallet_validation_c7`: with payee wallet number
`"12345678901"` both operations fail with the wallet-format error and
leave the state unchanged. -/
theorem wallet_validation_c7_witness :
    CreatePayment envDemo 0 wBadDemo "aaaaaaaaaaaaaaaaaaaaaaaa" "x" 500 "T" "D" =
      (.error .gcashInvalid, wBadDemo) ∧
    CreateDisbursement envDemo 0 wBadDemo "dddddddddddddddddddddddd" =
      (.error .gcashInvalid, wBadDemo) :=
  ⟨wallet_validation_c7.2.2.2.1 envDemo 0 wBadDemo "aaaaaaaaaaaaaaaaaaaaaaaa" "x"
      500 "T" "D" payerDemo payeeBadDemo (by decide) (by norm_num) (by decide)
      (by decide) (by decide) (by decide) (by decide) (by decide) (by decide)
      (by decide),
   wallet_validation_c7.2.2.2.2 envDemo 0 wBadDemo "dddddddddddddddddddddddd"
      pSuccBadDemo payeeBadDemo (by decide) (by decide) (by decide) (by decide)
      (by decide) (by decide) (by decide)⟩

/-- One delivery of the `paid` webhook for a single-record store whose
record matches the invoice id and whose payee resolves with a valid wallet
number: whatever the record's current status, the handler rewrites it to
`SUCCEEDED` and the nested `CreateDisbursement` passes its gate and enters
the disbursement gateway retry loop — the disbursement call counter grows
by exactly one, and the record keeps its identity and correlation keys. -/
theorem handleWebhook_paid_step (env : Env) (now : Nat) (w : W)
    (p : Payment) (u : User) (i : String)
    (hw : w.payments = [p])
    (hinv : p.invoiceId = i)
    (htrim : trimString p.id = p.id)
    (hobj : validObjectId p.id = true)
    (hpo : validObjectId p.payeeId = true)
    (hu : w.users.find? (fun x => x.id == p.payeeId) = some u)
    (hgne : (u.gcashNumber == "") = false)
    (hgc : validGCash u.gcashNumber = true) :
    ∃ p', (HandleWebhook env now w (paidPayload i)).2.payments = [p'] ∧
      (HandleWebhook env now w (paidPayload i)).2.users = w.users ∧
      (HandleWebhook env now w (paidPayload i)).2.disbCalls = w.disbCalls + 1 ∧
      p'.invoiceId = p.invoiceId ∧ p'.id = p.id ∧ p'.payeeId = p.payeeId := by
  have hbeq : (p.invoiceId == i) = true := by rw [hinv]; exact beq_self_eq_true i
  simp [HandleWebhook, paidPayload, lifecyclePayload, lookupJ, asStr?,
    asObj?, asStr, List.find?, updateFirst, CreateDisbursement,
    hw, hbeq, htrim, hobj, hpo, hu, hgne, hgc]
  rcases hr : runRetry disbAllow (env.gwDisb w.disbCalls) with
      ⟨r, a, s⟩ | ⟨c, b, a, s⟩ | ⟨a, s⟩ <;> simp only [hr]
  · rcases hd : env.decodeDisb r.body with _ | d <;> simp only [hd]
    · refine ⟨_, rfl, ?_, ?_, ?_, ?_, ?_⟩ <;> simp
    · refine ⟨_, rfl, ?_, ?_, ?_, ?_, ?_⟩ <;> simp
  · refine ⟨_, rfl, ?_, ?_, ?_, ?_, ?_⟩ <;> simp
  · refine ⟨_, rfl, ?_, ?_, ?_, ?_, ?_⟩ <;> simp

/-- C1 (amended).  Delivering the same `paid` webhook twice in a row for
one record does *not* result in exactly one disbursement gateway call:
because the handler unconditionally rewrites the status to `SUCCEEDED`
before invoking `CreateDisbursement`, the `SUCCEEDED` gate passes on every
delivery — there is no lookup-then-conditional-update guard — so each
duplicate delivery re-enters the disbursement gateway retry loop, and two
sequential deliveries make exactly two disbursement gateway calls. -/
theorem handleWebhook_duplicate_paid_c1 (env : Env) (now1 now2 : Nat) (w : W)
    (p : Payment) (u : User) (i : String)
    (hw : w.payments = [p])
    (hinv : p.invoiceId = i)
    (htrim : trimString p.id = p.id)
    (hobj : validObjectId p.id = true)
    (hpo : validObjectId p.payeeId = true)
    (hu : w.users.find? (fun x => x.id == p.payeeId) = some u)
    (hgne : (u.gcashNumber == "") = false)
    (hgc : validGCash u.gcashNumber = true) :
    ((HandleWebhook env now2
        (HandleWebhook env now1 w (paidPayload i)).2
        (paidPayload i)).2).disbCalls = w.disbCalls + 2 := by
  obtain ⟨p', h1, h2, h3, h4, h5, h6⟩ :=
    handleWebhook_paid_step env now1 w p u i hw hinv htrim hobj hpo hu hgne hgc
  obtain ⟨p'', g1, g2, g3, g4, g5, g6⟩ :=
    handleWebhook_paid_step env now2 (HandleWebhook env now1 w (paidPayload i)).2
      p' u i h1 (by rw [h4, hinv]) (by rw [h5]; exact htrim)
      (by rw [h5]; exact hobj) (by rw [h6]; exact hpo)
      (by rw [h2, h6]; exact hu) hgne hgc
  rw [g3, h3]

/-- Witness for `handleWebhook_duplicate_paid_c1`: in the demo scenario —
one `PENDING` record with invoice id `inv1` and a resolvable payee with a
valid wallet number — two sequential `invoice.paid` deliveries leave the
disbursement call counter at 2. -/
theorem handleWebhook_duplicate_paid_c1_witness :
    ((HandleWebhook envDemo 5
        (HandleWebhook envDemo 4 w1Demo (paidPayload "inv1")).2
        (paidPayload "inv1")).2).disbCalls = w1Demo.disbCalls + 2 :=
  handleWebhook_duplicate_paid_c1 envDemo 4 5 w1Demo
    (w1Demo.payments.head (by decide)) payeeDemo "inv1"
    (by decide) (by decide) (by decide) (by decide) (by decide) (by decide)
    (by decide) (by decide)

/-- Counterexample to C1 as stated: in the demo scenario the record starts
`PENDING`; after two sequential deliveries of the same `invoice.paid`
webhook the disbursement gateway retry loop has been entered exactly twice,
not once — the duplicate `paid` event re-triggered `CreateDisbursement`
even though the record was already past `PENDING`. -/
theorem handleWebhook_duplicate_paid_c1_counterexample :
    w1Demo.payments.map (fun p => (p.status, p.invoiceId)) = [("PENDING", "inv1")] ∧
    w1Demo.disbCalls = 0 ∧
    ((HandleWebhook envDemo 5
        (HandleWebhook envDemo 4 w1Demo (paidPayload "inv1")).2
        (paidPayload "inv1")).2).disbCalls = 2 ∧
    (2 : Nat) ≠ 1 := by
  refine ⟨by decide, by decide, by decide, by decide⟩

/-- C3 (amended).  Status monotonicity does not hold for the whole core:
`UpdatePayment` (both variants) never sets any record to `PENDING` — at
every store position, a record that is `PENDING` afterwards was `PENDING`
before — but `HandleWebhook`'s disbursement-completion branch writes a
gateway-reported `PENDING` straight onto whatever record matches the
disbursement id, succeeding even when that record is a fully-disbursed
`SUCCEEDED` record (terminal per the spec); `CreateDisbursement` likewise
writes the gateway-reported status over a `SUCCEEDED` record.  So terminal
states can move back to `PENDING` through the disbursement paths. -/
theorem monotonic_c3_amended :
    (∀ (now : Nat) (w : W) (pid uid : String) (i : Nat) (p' : Payment),
      ((UpdatePayment now w pid uid).2.payments)[i]? = some p' →
      p'.status = "PENDING" →
      ∃ q, w.payments[i]? = some q ∧ q.status = "PENDING") ∧
    (∀ (now : Nat) (w : W) (pid uid : String) (i : Nat) (p' : Payment),
      ((UpdatePaymentV1 now w pid uid).2.payments)[i]? = some p' →
      p'.status = "PENDING" →
      ∃ q, w.payments[i]? = some q ∧ q.status = "PENDING") ∧
    (∀ (env : Env) (now : Nat) (w : W) (d : String) (p : Payment),
      w.payments.find? (fun q => q.disbursementId == d) = some p →
      (HandleWebhook env now w (disbCompletedPayload d "PENDING")).1 = .ok () ∧
      (HandleWebhook env now w (disbCompletedPayload d "PENDING")).2.payments.find?
          (fun q => q.disbursementId == d) =
        some { p with status := "PENDING", updatedAt := now }) := by
  refine ⟨?_, ?_, ?_⟩
  · intro now w pid uid i p' h hp
    cases hf : w.payments.find? (fun q => q.referenceId == pid) with
    | none =>
      simp only [UpdatePayment, hf] at h
      exact ⟨p', h, hp⟩
    | some q =>
      cases hgate : (q.status != "PENDING") with
      | true =>
        simp only [UpdatePayment, hf, hgate, Bool.true_eq_false, if_true] at h
        exact ⟨p', h, hp⟩
      | false =>
        rcases hff : (updateFirst (fun q => q.referenceId == pid)
            (fun q => { q with status := "SUCCEEDED", updatedAt := now })
            w.payments).find? (fun q => q.referenceId == pid) with _ | q' <;>
          simp only [UpdatePayment, hf, hgate, Bool.false_eq_true, if_false,
            hff] at h
        all_goals {
          rcases updateFirst_getElem? (fun q => q.referenceId == pid)
              (fun q => { q with status := "SUCCEEDED", updatedAt := now })
              w.payments i with heq | ⟨x, hx, heq⟩
          · exact ⟨p', by rw [← heq]; exact h, hp⟩
          · rw [heq] at h
            cases h
            simp at hp }
  · intro now w pid uid i p' h hp
    cases hf : w.payments.find? (fun q => q.id == pid) with
    | none =>
      simp only [UpdatePaymentV1, hf] at h
      exact ⟨p', h, hp⟩
    | some q =>
      cases hgate : (q.status != "PENDING") with
      | true =>
        simp only [UpdatePaymentV1, hf, hgate, Bool.true_eq_false, if_true] at h
        exact ⟨p', h, hp⟩
      | false =>
        rcases hff : (updateFirst (fun q => q.id == pid)
            (fun q => { q with status := "SUCCEEDED", updatedAt := now })
            w.payments).find? (fun q => q.id == pid) with _ | q' <;>
          simp only [UpdatePaymentV1, hf, hgate, Bool.false_eq_true, if_false,
            hff] at h
        all_goals {
          rcases updateFirst_getElem? (fun q => q.id == pid)
              (fun q => { q with status := "SUCCEEDED", updatedAt := now })
              w.payments i with heq | ⟨x, hx, heq⟩
          · exact ⟨p', by rw [← heq]; exact h, hp⟩
          · rw [heq] at h
            cases h
            simp at hp }
  · intro env now w d p hf
    constructor
    · simp [HandleWebhook, disbCompletedPayload, lookupJ, asStr?, asObj?, asStr]
    · simp [HandleWebhook, disbCompletedPayload, lookupJ, asStr?, asObj?, asStr]
      exact find?_updateFirst (fun q => q.disbursementId == d)
        (fun q => { q with status := "PENDING", updatedAt := now })
        (fun x hx => hx) w.payments p hf

/-- Witness for `monotonic_c3_amended`: `UpdatePayment` on an unknown id
leaves the demo store's `PENDING` record `PENDING` (first clause), and on
the fully-disbursed demo store the disbursement-completion webhook with
status `PENDING` succeeds and rewrites the `SUCCEEDED` record to `PENDING`
(third clause). -/
theorem monotonic_c3_amended_witness :
    (∃ q, w1Demo.payments[0]? = some q ∧ q.status = "PENDING") ∧
    ((HandleWebhook envDemo 3 w3Demo (disbCompletedPayload "d1" "PENDING")).1 =
        .ok () ∧
      (HandleWebhook envDemo 3 w3Demo
          (disbCompletedPayload "d1" "PENDING")).2.payments.find?
          (fun q => q.disbursementId == "d1") =
        some { w3Demo.payments.head (by decide) with
                status := "PENDING", updatedAt := 3 }) :=
  ⟨monotonic_c3_amended.1 9 w1Demo "unknown-ref" "user" 0
      (w1Demo.payments.head (by decide)) (by decide) (by decide),
   monotonic_c3_amended.2.2 envDemo 3 w3Demo "d1"
      (w3Demo.payments.head (by decide)) (by decide)⟩

/-- Counterexample to C3 as stated: in the demo scenario — reached by
`CreatePayment`, then the `UpdatePayment` confirmation, then
`CreateDisbursement` — the record is a fully-disbursed `SUCCEEDED` record
(disbursement id `d1`), a terminal state; one `ph_disbursement.completed`
webhook carrying status `PENDING` moves it back to `PENDING`. -/
theorem monotonic_c3_counterexample :
    w3Demo.payments.map (fun p => (p.status, p.disbursementId)) =
      [("SUCCEEDED", "d1")] ∧
    w4Demo.payments.map (fun p => p.status) = ["PENDING"] := by
  refine ⟨by decide, by decide⟩

/-- Gateway environments that answer with an arbitrary status `s`. -/
def envChargeStatus (s : String) : Env :=
  { envDemo with decodeCharge :=
      fun _ => some ⟨"ch1", s, "dl://x", "http://mw", "http://dw"⟩ }

def envDisbStatus (s : String) : Env :=
  { envDemo with decodeDisb := fun _ => some ⟨"d1", s⟩ }

def envInvoiceStatus (s : String) : Env :=
  { envDemo with decodeInvoice := fun _ => some ⟨"inv1", s, "http://pay.example"⟩ }

/-- A `SUCCEEDED` record ready for disbursement. -/
def pSuccC5 : Payment :=
  { id := "dddddddddddddddddddddddd", referenceId := "refS",
    payerId := "aaaaaaaaaaaaaaaaaaaaaaaa", payeeId := "68d6aadf4ee098645ac87d5d",
    amount := 5, title := "T", description := "D", status := "SUCCEEDED",
    invoiceId := "invS", chargeId := "", disbursementId := "",
    checkoutUrl := "u", createdAt := 0, updatedAt := 0 }

def wSuccC5 : W := { payments := [pSuccC5], users := [payerDemo, payeeDemo] }

/-- A fully-disbursed record, addressed by disbursement id `d1`. -/
def pDisbC5 : Payment := { pSuccC5 with disbursementId := "d1" }

def wDisbC5 : W := { payments := [pDisbC5], users := [payerDemo, payeeDemo] }

/-- C5 (amended).  An unrecognized gateway status is handled differently
per path: the charge-creation path coerces it to `PENDING` before
persisting, and the disbursement paths (creation and completion webhook)
coerce it to `SUCCEEDED`; but the invoice-creation path does *not* coerce —
a status outside `{PENDING, PAID, SETTLED, EXPIRED}` is rejected with an
"invalid invoice status" error and no payment is persisted. -/
theorem coercion_c5_amended (s : String)
    (hp : s ≠ "PENDING") (hs : s ≠ "SUCCEEDED")
    (hpaid : s ≠ "PAID") (hset : s ≠ "SETTLED") (hexp : s ≠ "EXPIRED") :
    (∃ pay, (CreatePaymentCharge (envChargeStatus s) 0 w0Demo
        "aaaaaaaaaaaaaaaaaaaaaaaa" "68d6aadf4ee098645ac87d5d" 500 "T" "D").1 =
          .ok pay ∧ pay.status = "PENDING") ∧
    ((CreateDisbursement (envDisbStatus s) 9 wSuccC5
          "dddddddddddddddddddddddd").1 = .ok () ∧
      (CreateDisbursement (envDisbStatus s) 9 wSuccC5
          "dddddddddddddddddddddddd").2.payments.map (fun p => p.status) =
        ["SUCCEEDED"]) ∧
    ((HandleWebhook envDemo 9 wDisbC5 (disbCompletedPayload "d1" s)).1 =
        .ok () ∧
      (HandleWebhook envDemo 9 wDisbC5
          (disbCompletedPayload "d1" s)).2.payments.map (fun p => p.status) =
        ["SUCCEEDED"]) ∧
    (CreatePayment (envInvoiceStatus s) 0 w0Demo "aaaaaaaaaaaaaaaaaaaaaaaa"
        "x" 500 "T" "D").1 = .error (.invalidStatusFromGateway s) ∧
    (CreatePayment (envInvoiceStatus s) 0 w0Demo "aaaaaaaaaaaaaaaaaaaaaaaa"
        "x" 500 "T" "D").2.payments = [] := by
  have h1 : (s == "PENDING") = false := beq_eq_false_iff_ne.mpr hp
  have h2 : (s == "SUCCEEDED") = false := beq_eq_false_iff_ne.mpr hs
  have h3 : (s == "PAID") = false := beq_eq_false_iff_ne.mpr hpaid
  have h4 : (s == "SETTLED") = false := beq_eq_false_iff_ne.mpr hset
  have h5 : (s == "EXPIRED") = false := beq_eq_false_iff_ne.mpr hexp
  have hAm : ¬ (500 : Rat) ≤ 0 := by norm_num
  refine ⟨?_, ⟨?_, ?_⟩, ⟨?_, ?_⟩, ?_, ?_⟩
  · simp +decide [CreatePaymentCharge, envChargeStatus, envDemo, w0Demo,
      payerDemo, payeeDemo, trimString, isSpaceChar, validObjectId, isHexChar,
      validGCash, startsWith0, runRetry, retryAux, chargeAllow, bne, h1, h2]
  · simp +decide [CreateDisbursement, envDisbStatus, envDemo, wSuccC5, pSuccC5,
      payerDemo, payeeDemo, trimString, isSpaceChar, validObjectId, isHexChar,
      validGCash, startsWith0, runRetry, retryAux, disbAllow, updateFirst,
      bne, h1, h2]
  · simp +decide [CreateDisbursement, envDisbStatus, envDemo, wSuccC5, pSuccC5,
      payerDemo, payeeDemo, trimString, isSpaceChar, validObjectId, isHexChar,
      validGCash, startsWith0, runRetry, retryAux, disbAllow, updateFirst,
      bne, h1, h2]
  · simp +decide [HandleWebhook, disbCompletedPayload, lookupJ, asStr?, asObj?,
      asStr, envDemo, wDisbC5, pDisbC5, pSuccC5, updateFirst, bne, h1, h2]
  · simp +decide [HandleWebhook, disbCompletedPayload, lookupJ, asStr?, asObj?,
      asStr, envDemo, wDisbC5, pDisbC5, pSuccC5, updateFirst, bne, h1, h2]
  · simp +decide [CreatePayment, envInvoiceStatus, envDemo, w0Demo,
      payerDemo, payeeDemo, trimString, isSpaceChar, validObjectId, isHexChar,
      validGCash, startsWith0, runRetry, retryAux, invoiceAllow,
      bne, h1, h3, h4, h5]
  · simp +decide [CreatePayment, envInvoiceStatus, envDemo, w0Demo,
      payerDemo, payeeDemo, trimString, isSpaceChar, validObjectId, isHexChar,
      validGCash, startsWith0, runRetry, retryAux, invoiceAllow,
      bne, h1, h3, h4, h5]

/-- Witness for `coercion_c5_amended` at the unrecognized status `"WEIRD"`. -/
theorem coercion_c5_amended_witness :
    (∃ pay, (CreatePaymentCharge (envChargeStatus "WEIRD") 0 w0Demo
        "aaaaaaaaaaaaaaaaaaaaaaaa" "68d6aadf4ee098645ac87d5d" 500 "T" "D").1 =
          .ok pay ∧ pay.status = "PENDING") ∧
    ((CreateDisbursement (envDisbStatus "WEIRD") 9 wSuccC5
          "dddddddddddddddddddddddd").1 = .ok () ∧
      (CreateDisbursement (envDisbStatus "WEIRD") 9 wSuccC5
          "dddddddddddddddddddddddd").2.payments.map (fun p => p.status) =
        ["SUCCEEDED"]) ∧
    ((HandleWebhook envDemo 9 wDisbC5 (disbCompletedPayload "d1" "WEIRD")).1 =
        .ok () ∧
      (HandleWebhook envDemo 9 wDisbC5
          (disbCompletedPayload "d1" "WEIRD")).2.payments.map (fun p => p.status) =
        ["SUCCEEDED"]) ∧
    (CreatePayment (envInvoiceStatus "WEIRD") 0 w0Demo "aaaaaaaaaaaaaaaaaaaaaaaa"
        "x" 500 "T" "D").1 = .error (.invalidStatusFromGateway "WEIRD") ∧
    (CreatePayment (envInvoiceStatus "WEIRD") 0 w0Demo "aaaaaaaaaaaaaaaaaaaaaaaa"
        "x" 500 "T" "D").2.payments = [] :=
  coercion_c5_amended "WEIRD" (by decide) (by decide) (by decide) (by decide)
    (by decide)

/-- Counterexample to C5 as stated: the invoice-creation path does not
coerce an unrecognized invoice status to `PENDING` — with the gateway
answering status `"COMPLETED"` (and a valid checkout URL), `CreatePayment`
rejects the response with the "invalid invoice status" error and persists
nothing. -/
theorem coercion_c5_counterexample :
    (CreatePayment (envInvoiceStatus "COMPLETED") 0 w0Demo
        "aaaaaaaaaaaaaaaaaaaaaaaa" "x" 500 "T" "D").1 =
      .error (.invalidStatusFromGateway "COMPLETED") ∧
    (CreatePayment (envInvoiceStatus "COMPLETED") 0 w0Demo
        "aaaaaaaaaaaaaaaaaaaaaaaa" "x" 500 "T" "D").2.payments = [] := by
  refine ⟨by decide, by decide⟩
